import Mathlib

/-!
# Verification of `EntityRefLink.tsx` (catalog-react)

A shallow embedding of the `EntityRefLink` / `PeekAheadPopover` component
from `src/plugins/catalog-react/src/components/EntityRefLink/EntityRefLink.tsx`:

* the three-way reference normalization performed by `EntityRefLink`
  (string / full entity / compound reference, followed by lower-casing of
  kind and namespace and namespace defaulting, lines 203-229);
* the lazy fetch state machine of `PeekAheadPopover` (`useAsyncFn` load at
  lines 96-106 plus the `useEffect` trigger guard at lines 108-112),
  modelled as an explicit step function over component state driven by
  popover open/close events, effect runs, and fetch completions;
* the rendering of the tag chip box (lines 144-154) including the exact
  JavaScript truthiness semantics of the `&&` guard, and of the email
  action row guard (lines 166-178).

External collaborators that live elsewhere in the repository
(`@backstage/catalog-model`: `parseEntityRef`, `DEFAULT_NAMESPACE`,
`isUserEntity`, `isGroupEntity`) are modelled from the specification, as
noted on each definition. JavaScript strings are modelled by Lean
`String`; `toLocaleLowerCase('en-US')` is modelled as ASCII lower-casing
(the two agree on ASCII input).
-/

/-- Model of `String.prototype.toLocaleLowerCase('en-US')` as used at lines
222-223 of the source. Modelled as per-character ASCII lower-casing, which
agrees with the `en-US` locale lowering on ASCII strings. -/
def toLocaleLowerCaseEnUS (s : String) : String :=
  ⟨s.data.map Char.toLower⟩

/-- Modelled from the spec: `DEFAULT_NAMESPACE` from
`@backstage/catalog-model` (not under `src/`), "the default-namespace
sentinel, case-insensitively equal to \"default\"". -/
def DEFAULT_NAMESPACE : String := "default"

/-- The canonical reference triple produced by normalization (spec §3
`EntityReference`); this is the shape of `routeParams` at line 225 of the
source, after the defaulting at lines 222-223 has made `namespace` a
definite string. -/
structure EntityReference where
  kind : String
  «namespace» : String
  name : String
deriving Repr, DecidableEq

/-- `CompoundEntityRef` from `@backstage/catalog-model`: a structured
`{kind, namespace, name}` identifier. The `namespace` field is modelled
as optional because line 223 of the source
(`namespace?.toLocaleLowerCase('en-US') ?? DEFAULT_NAMESPACE`) explicitly
guards against a missing value. -/
structure CompoundEntityRef where
  kind : String
  «namespace» : Option String
  name : String
deriving Repr, DecidableEq

/-- `Entity.spec.profile` (only meaningful for user/group kind variants). -/
structure EntityProfile where
  email : Option String
deriving Repr, DecidableEq

/-- The fields of `Entity.spec` read by the component (`spec?.type` at line
143, `spec.profile?.email` at lines 168-172). -/
structure EntitySpec where
  type : Option String
  profile : Option EntityProfile
deriving Repr, DecidableEq

/-- The fields of `Entity.metadata` read by the component: `namespace` and
`name` (lines 214-215), `description` (line 141), `tags` (lines 145-149).
`namespace`, `description` and `tags` are optional in the catalog model. -/
structure EntityMetadata where
  name : String
  «namespace» : Option String
  description : Option String
  tags : Option (List String)
deriving Repr, DecidableEq

/-- The fields of a catalog `Entity` consumed read-only by the component. -/
structure Entity where
  kind : String
  metadata : EntityMetadata
  spec : Option EntitySpec
deriving Repr, DecidableEq

/-- Splits a character list at the FIRST occurrence of `sep`, returning the
characters before it and after it, or `none` when `sep` does not occur. -/
def splitFirst (sep : Char) : List Char → Option (List Char × List Char)
  | [] => none
  | c :: cs =>
    if c = sep then some ([], cs)
    else (splitFirst sep cs).map (fun p => (c :: p.1, p.2))

/-- Modelled from the spec: `parseEntityRef(string) -> {kind, namespace,
name}` from `@backstage/catalog-model` (not under `src/`), which "fails on
malformed input" (§6) and parses serialized references of the shape
`k:ns/name`; when the namespace part is absent it substitutes the default
namespace, and a reference without a kind (or with empty or
separator-containing components) is malformed and rejected with a
`ParseError`, modelled as `Except.error`. Casing of all components is
preserved (lower-casing is done by the caller at lines 222-223). -/
def parseEntityRef (s : String) : Except String EntityReference :=
  match splitFirst ':' s.data with
  | none => .error ("Entity reference " ++ s ++ " had missing or empty kind")
  | some (kindCs, rest) =>
    if '/' ∈ kindCs ∨ kindCs = [] then
      .error ("Entity reference " ++ s ++ " had missing or empty kind")
    else
      match splitFirst '/' rest with
      | none =>
        if ':' ∈ rest ∨ rest = [] then
          .error ("Entity reference " ++ s ++ " was not valid")
        else
          .ok ⟨⟨kindCs⟩, DEFAULT_NAMESPACE, ⟨rest⟩⟩
      | some (nsCs, nameCs) =>
        if ':' ∈ nsCs ∨ nsCs = [] ∨ ':' ∈ nameCs ∨ '/' ∈ nameCs ∨ nameCs = [] then
          .error ("Entity reference " ++ s ++ " was not valid")
        else
          .ok ⟨⟨kindCs⟩, ⟨nsCs⟩, ⟨nameCs⟩⟩

/-- The three runtime shapes accepted by the `entityRef` prop of
`EntityRefLink` (line 60: `Entity | CompoundEntityRef | string`), decided
at lines 207-220 by `typeof entityRef === 'string'` and
`'metadata' in entityRef`. -/
inductive EntityRefInput where
  | str (s : String)
  | entity (e : Entity)
  | compound (r : CompoundEntityRef)
deriving Repr, DecidableEq

/-- The normalization performed by `EntityRefLink` at lines 203-229:
the three-way branch extracting raw `kind` / `namespace` / `name`
(lines 207-220), then
`kind = kind.toLocaleLowerCase('en-US')` (line 222) and
`namespace = namespace?.toLocaleLowerCase('en-US') ?? DEFAULT_NAMESPACE`
(line 223). An `Except.error` result models the uncaught `ParseError`
thrown out of `parseEntityRef` at line 208. -/
def normalizeEntityRef (input : EntityRefInput) : Except String EntityReference :=
  let raw : Except String (String × Option String × String) :=
    match input with
    | .str s =>
      (parseEntityRef s).map (fun p => (p.kind, some p.«namespace», p.name))
    | .entity e => .ok (e.kind, e.metadata.«namespace», e.metadata.name)
    | .compound r => .ok (r.kind, r.«namespace», r.name)
  raw.map (fun kn =>
    ⟨toLocaleLowerCaseEnUS kn.1,
     (kn.2.1.map toLocaleLowerCaseEnUS).getD DEFAULT_NAMESPACE,
     kn.2.2⟩)

/-! ## The lazy fetch state machine of `PeekAheadPopover`

`useAsyncFn` (lines 96-106) exposes `{loading, error, value}` plus a
`load` thunk; the `useEffect` at lines 108-112 dispatches `load()` exactly
when `popupState.isOpen && !entity && !error && !loading`. Fetch outcomes
are applied when the async body settles: a resolved body replaces the
state with `{value, loading: false}`, a rejected one with
`{error, loading: false}`. The catalog client obtained from the api
holder is modelled as `Option (CompoundEntityRef → Except String (Option
Entity))`: `none` models `apiHolder.get(catalogApiRef)` returning
`undefined` (line 97-98), and an `Except.error` result of the lookup
models `getEntityByRef` rejecting with a transport error. -/

/-- The body of the `useAsyncFn` callback at lines 96-106: when a catalog
api is available it calls `getEntityByRef`; an empty lookup result is
turned into the synthesized error `` `${entityRef.name} was not found` ``
(line 101); without an api the body resolves to `undefined`. An
`Except.error` models the body's promise rejecting. -/
def loadBody (lookup : Option (CompoundEntityRef → Except String (Option Entity)))
    (entityRef : CompoundEntityRef) : Except String (Option Entity) :=
  match lookup with
  | none => .ok none
  | some getEntityByRef =>
    match getEntityByRef entityRef with
    | .error e => .error e
    | .ok none => .error (entityRef.name ++ " was not found")
    | .ok (some retrievedEntity) => .ok (some retrievedEntity)

/-- The observable state of a mounted `PeekAheadPopover` instance:
the popover open flag (`popupState.isOpen`), the `useAsyncFn` state
`{loading, value, error}`, plus two instrumentation counters:
`dispatches` counts calls of the `load` thunk by the effect, and `calls`
counts actual `getEntityByRef` invocations (one per dispatched load body
whose `apiHolder.get` yielded a client, lines 97-99). -/
structure PeekAheadState where
  isOpen : Bool
  loading : Bool
  value : Option Entity
  error : Option String
  dispatches : Nat
  calls : Nat
deriving Repr, DecidableEq

/-- Events driving a mounted `PeekAheadPopover`: the hover popover opening
or closing, a run of the `useEffect` at lines 108-112, and the settling of
a previously dispatched load body. -/
inductive PopoverEvent where
  | setOpen (b : Bool)
  | effect
  | complete
deriving Repr, DecidableEq

/-- State of a freshly mounted instance: popover closed, `useAsyncFn`
initial state (not loading, no value, no error), no dispatches. -/
def initPeekAheadState : PeekAheadState :=
  ⟨false, false, none, none, 0, 0⟩

/-- The trigger guard of the `useEffect` at line 109:
`popupState.isOpen && !entity && !error && !loading`. -/
def fetchGuard (s : PeekAheadState) : Bool :=
  s.isOpen && s.value.isNone && s.error.isNone && !s.loading

/-- One transition of the mounted component:
* `setOpen b` records the popover opening/closing;
* `effect` runs the `useEffect` body (lines 108-112): it dispatches
  `load()` iff `fetchGuard` holds, which marks the fetch in flight and
  issues the `getEntityByRef` call iff a catalog api client is available;
* `complete` settles an in-flight load: a resolved body stores its value
  (clearing any error), a rejected body stores the error (clearing the
  value), and `loading` drops in both cases. -/
def popoverStep (lookup : Option (CompoundEntityRef → Except String (Option Entity)))
    (entityRef : CompoundEntityRef) (s : PeekAheadState) :
    PopoverEvent → PeekAheadState
  | .setOpen b => { s with isOpen := b }
  | .effect =>
    if fetchGuard s then
      { s with
        loading := true
        dispatches := s.dispatches + 1
        calls := s.calls + (if lookup.isSome then 1 else 0) }
    else s
  | .complete =>
    if s.loading then
      match loadBody lookup entityRef with
      | .ok v => { s with loading := false, value := v, error := none }
      | .error e => { s with loading := false, error := some e, value := none }
    else s

/-- Runs a mounted instance from state `s` through a list of events. -/
def popoverRunFrom (lookup : Option (CompoundEntityRef → Except String (Option Entity)))
    (entityRef : CompoundEntityRef) (s : PeekAheadState)
    (events : List PopoverEvent) : PeekAheadState :=
  events.foldl (popoverStep lookup entityRef) s

/-- Runs a mounted instance from the initial state. -/
def popoverRun (lookup : Option (CompoundEntityRef → Except String (Option Entity)))
    (entityRef : CompoundEntityRef) (events : List PopoverEvent) : PeekAheadState :=
  popoverRunFrom lookup entityRef initPeekAheadState events

/-! ## Rendering model

JSX guard expressions of the form `a && b && jsx` evaluate by JavaScript
truthiness: `&&` returns its left operand when that is falsy. React then
renders strings and numbers as text nodes, while `false`, `undefined` and
`null` render nothing. `JSVal` captures the JavaScript values that occur
in the guards of this component. -/

/-- Nodes the chip `Box` (lines 144-154) can contain: an individual tag
`Chip`, the tooltip-wrapped `...` overflow `Chip`, or a text node produced
by React rendering a primitive value. -/
inductive RenderNode where
  | chip (label : String)
  | overflowChip
  | text (s : String)
deriving Repr, DecidableEq

/-- The JavaScript values occurring in this component's JSX guards. -/
inductive JSVal where
  | undef
  | bool (b : Bool)
  | num (n : Nat)
  | node (x : RenderNode)
deriving Repr, DecidableEq

/-- JavaScript truthiness for the values of `JSVal`: `undefined`, `false`
and `0` are falsy. -/
def JSVal.truthy : JSVal → Bool
  | .undef => false
  | .bool b => b
  | .num n => n != 0
  | .node _ => true

/-- JavaScript `&&`: returns the left operand when it is falsy, else the
right operand. -/
def jsAnd (a b : JSVal) : JSVal :=
  if a.truthy then b else a

/-- React's rendering of a primitive guard result: numbers become text
nodes, `false`/`undefined` render nothing, element nodes render. -/
def renderJSVal : JSVal → List RenderNode
  | .undef => []
  | .bool _ => []
  | .num n => [.text (toString n)]
  | .node x => [x]

/-- `tags?.length` (line 148): `undefined` when `metadata.tags` is absent,
else the length. -/
def tagsLength : Option (List String) → JSVal
  | none => .undef
  | some tags => .num tags.length

/-- Cap on individually rendered tag chips (line 86 of the source). -/
def maxTagChips : Nat := 4

/-- `tags?.length > maxTagChips` (line 149): JavaScript `>` yields `false`
when one operand is `undefined`. -/
def tagsLengthGtMax (tags : Option (List String)) : JSVal :=
  match tags with
  | none => .bool false
  | some ts => .bool (decide (ts.length > maxTagChips))

/-- The guard expression at lines 148-153:
`tags?.length && tags?.length > maxTagChips && (<Tooltip…><Chip label="..."/></Tooltip>)`,
with JavaScript left-associated `&&`. -/
def overflowChipExpr (tags : Option (List String)) : JSVal :=
  jsAnd (jsAnd (tagsLength tags) (tagsLengthGtMax tags)) (.node .overflowChip)

/-- The children of the chip `Box` at lines 144-154:
`(entity.metadata.tags || []).slice(0, maxTagChips).map(tag => <Chip label={tag}/>)`
followed by the rendering of the overflow guard expression. -/
def renderTagChips (tags : Option (List String)) : List RenderNode :=
  ((tags.getD []).take maxTagChips).map RenderNode.chip
    ++ renderJSVal (overflowChipExpr tags)

/-! ## Email action (lines 166-178) -/

/-- Modelled from the spec: `isUserEntity` from `@backstage/catalog-model`
(not under `src/`), the classification predicate deciding whether an
entity's "kind is classified as a person" (§4.2); per the spec's §8
scenario, an entity with kind `"user"` is so classified. -/
def isUserEntity (e : Entity) : Bool :=
  toLocaleLowerCaseEnUS e.kind == "user"

/-- Modelled from the spec: `isGroupEntity` from
`@backstage/catalog-model` (not under `src/`), the classification
predicate deciding whether an entity's kind is classified as a group. -/
def isGroupEntity (e : Entity) : Bool :=
  toLocaleLowerCaseEnUS e.kind == "group"

/-- `entity.spec.profile?.email` as read at lines 168-172 (the source
accesses `spec` without optional chaining because the TypeScript narrowing
from `isUserEntity`/`isGroupEntity` guarantees it; the model reads it
optionally). -/
def specProfileEmail (e : Entity) : Option String :=
  (e.spec.bind EntitySpec.profile).bind EntityProfile.email

/-- The mail action of the `CardActions` row, from the guard at lines
166-178: `entity && (isUserEntity(entity) || isGroupEntity(entity)) &&
entity.spec.profile?.email && (<Tooltip…><Button
href={`mailto:${entity.spec.profile.email}`}…/></Tooltip>)`.
Returns the `href` of the rendered mail `Button`, or `none` when the
JavaScript guard chain short-circuits on a falsy operand (`undefined`
entity or email, non-user/group kind, or the empty string, which is falsy). -/
def emailActionHref (entity : Option Entity) : Option String :=
  match entity with
  | none => none
  | some e =>
    if isUserEntity e || isGroupEntity e then
      match specProfileEmail e with
      | none => none
      | some email => if email = "" then none else some ("mailto:" ++ email)
    else none

/-- Counts the individual tag `Chip`s among rendered nodes. -/
def countTagChips (nodes : List RenderNode) : Nat :=
  (nodes.filter fun x => match x with | .chip _ => true | _ => false).length

/-- Whether the rendered nodes include the `...` overflow chip. -/
def hasOverflowChip (nodes : List RenderNode) : Bool :=
  decide (RenderNode.overflowChip ∈ nodes)

/-- `n` back-to-back render cycles while the popover stays open: each cycle
is one run of the `useEffect` followed by the settling of whatever load it
dispatched. -/
def effectCompleteCycles (n : Nat) : List PopoverEvent :=
  (List.replicate n [PopoverEvent.effect, PopoverEvent.complete]).flatten

/-- Invariant of every reachable `PeekAheadPopover` state: an in-flight
fetch implies nothing is cached yet; without a catalog api client no
`getEntityByRef` call is ever made and nothing is ever cached; with a
client, at most one call is made, and exactly one iff a fetch is in
flight or a value or error is cached. -/
def PeekInv (lookup : Option (CompoundEntityRef → Except String (Option Entity)))
    (s : PeekAheadState) : Prop :=
  (s.loading = true → s.value = none ∧ s.error = none)
  ∧ (lookup = none → s.calls = 0 ∧ s.value = none ∧ s.error = none)
  ∧ (lookup.isSome = true →
      s.calls ≤ 1
      ∧ (s.calls = 1 ↔
          (s.loading = true ∨ s.value.isSome = true ∨ s.error.isSome = true)))

/-- A sample catalog entity used to instantiate the universally quantified
theorems at concrete inputs. -/
def sampleEntity : Entity :=
  ⟨"Component", ⟨"demo", some "default", some "a demo", some ["a", "b"]⟩,
   some ⟨some "service", none⟩⟩

/-- A sample compound reference. -/
def sampleRef : CompoundEntityRef := ⟨"component", some "default", "demo"⟩

/-- A sample catalog client whose lookup always succeeds. -/
def sampleLookup : Option (CompoundEntityRef → Except String (Option Entity)) :=
  some (fun _ => .ok (some sampleEntity))

/-- A sample event trace: the popover opens, the effect dispatches the
fetch, and the fetch completes. -/
def sampleTrace : List PopoverEvent := [.setOpen true, .effect, .complete]

/-- A sample user entity with a profile email. -/
def sampleUserEntity : Entity :=
  ⟨"User", ⟨"alice", some "default", none, none⟩,
   some ⟨none, some ⟨some "a@b.com"⟩⟩⟩

/-- A sample resource entity carrying the same profile email. -/
def sampleResourceEntity : Entity :=
  ⟨"Resource", ⟨"db", some "default", none, none⟩,
   some ⟨none, some ⟨some "a@b.com"⟩⟩⟩

/-! ## Helper lemmas -/

/-- `splitFirst` finds the first occurrence of the separator: prepending
separator-free characters and then the separator splits exactly there. -/
theorem splitFirst_append (sep : Char) (xs ys : List Char) (h : sep ∉ xs) :
    splitFirst sep (xs ++ sep :: ys) = some (xs, ys) := by
  induction xs with
  | nil => simp [splitFirst]
  | cons c cs ih =>
    have hc : c ≠ sep := by
      intro hcontra
      exact h (hcontra ▸ List.mem_cons_self c cs)
    have hcs : sep ∉ cs := fun hmem => h (List.mem_cons_of_mem c hmem)
    simp [splitFirst, hc, ih hcs]

/-! ## Claims about the reference normalizer -/

/-- C2 (counterexample): the claim that an EMPTY-STRING namespace is
replaced by the default-namespace sentinel is false: JavaScript optional
chaining and `??` at line 223 only react to `undefined`/`null`, so a
compound reference with `namespace: ""` normalizes to the empty-string
namespace, not to `"default"`. -/
theorem normalizeEntityRef_empty_namespace_counterexample :
    normalizeEntityRef (.compound ⟨"Component", some "", "n"⟩) =
      .ok ⟨"component", "", "n"⟩ ∧ ("" : String) ≠ DEFAULT_NAMESPACE :=
  ⟨rfl, by decide⟩

/-- C2 (amended): when the namespace is omitted (`undefined`), both for a
compound reference and for a full entity record, normalization substitutes
the default-namespace sentinel `"default"`; an empty-string namespace is
NOT defaulted but kept as the empty string. -/
theorem normalizeEntityRef_namespace_defaulting (k nm : String)
    (d : Option String) (t : Option (List String)) (sp : Option EntitySpec) :
    normalizeEntityRef (.compound ⟨k, none, nm⟩) =
      .ok ⟨toLocaleLowerCaseEnUS k, DEFAULT_NAMESPACE, nm⟩
    ∧ normalizeEntityRef (.entity ⟨k, ⟨nm, none, d, t⟩, sp⟩) =
      .ok ⟨toLocaleLowerCaseEnUS k, DEFAULT_NAMESPACE, nm⟩
    ∧ normalizeEntityRef (.compound ⟨k, some "", nm⟩) =
      .ok ⟨toLocaleLowerCaseEnUS k, "", nm⟩ :=
  ⟨rfl, rfl, rfl⟩

/-- C4: normalizing a full entity record (kind at top level, namespace and
name inside its metadata block) yields exactly the same canonical triple
as normalizing the compound reference record with identical field values:
the two non-string branches at lines 212-220 extract identical raw
triples and share the post-processing at lines 222-223. -/
theorem normalizeEntityRef_entity_eq_compound (k : String) (ns : Option String)
    (nm : String) (d : Option String) (t : Option (List String))
    (sp : Option EntitySpec) :
    normalizeEntityRef (.entity ⟨k, ⟨nm, ns, d, t⟩, sp⟩) =
      normalizeEntityRef (.compound ⟨k, ns, nm⟩) :=
  rfl

/-- C3: a well-formed reference string `k:ns/name` (components non-empty
and free of the `:` and `/` separators) normalizes to the triple with
`kind` and `namespace` lower-cased and the `name` component's casing left
unchanged. -/
theorem normalizeEntityRef_string_ref (k ns nm : List Char)
    (hk1 : ':' ∉ k) (hk2 : '/' ∉ k) (hk3 : k ≠ [])
    (hns1 : ':' ∉ ns) (hns2 : '/' ∉ ns) (hns3 : ns ≠ [])
    (hn1 : ':' ∉ nm) (hn2 : '/' ∉ nm) (hn3 : nm ≠ []) :
    normalizeEntityRef (.str ⟨k ++ ':' :: (ns ++ '/' :: nm)⟩) =
      .ok ⟨⟨k.map Char.toLower⟩, ⟨ns.map Char.toLower⟩, ⟨nm⟩⟩ := by
  have hparse : parseEntityRef ⟨k ++ ':' :: (ns ++ '/' :: nm)⟩ =
      .ok ⟨⟨k⟩, ⟨ns⟩, ⟨nm⟩⟩ := by
    simp [parseEntityRef, splitFirst_append ':' k (ns ++ '/' :: nm) hk1,
      splitFirst_append '/' ns nm hns2, hk2, hk3, hns1, hns3, hn1, hn2, hn3]
  simp [normalizeEntityRef, hparse, toLocaleLowerCaseEnUS, Except.map]

/-- Witness for C3 at the concrete reference string `"K:Ns/NaMe"`. -/
theorem normalizeEntityRef_string_ref_witness :
    normalizeEntityRef (.str "K:Ns/NaMe") = .ok ⟨"k", "ns", "NaMe"⟩ :=
  normalizeEntityRef_string_ref ['K'] ['N', 's'] ['N', 'a', 'M', 'e']
    (by decide) (by decide) (by decide) (by decide) (by decide) (by decide)
    (by decide) (by decide) (by decide)

/-! ## Invariant lemmas for the popover state machine -/

/-- The initial state satisfies the reachability invariant. -/
theorem peekInv_init
    (lookup : Option (CompoundEntityRef → Except String (Option Entity))) :
    PeekInv lookup initPeekAheadState := by
  refine ⟨by simp [initPeekAheadState], by simp [initPeekAheadState], ?_⟩
  intro _
  simp [initPeekAheadState]

/-- Every transition preserves the reachability invariant. -/
theorem peekInv_step
    (lookup : Option (CompoundEntityRef → Except String (Option Entity)))
    (ref : CompoundEntityRef) (s : PeekAheadState) (e : PopoverEvent)
    (h : PeekInv lookup s) : PeekInv lookup (popoverStep lookup ref s e) := by
  obtain ⟨h1, h2, h3⟩ := h
  cases e with
  | setOpen b => exact ⟨h1, h2, h3⟩
  | effect =>
    by_cases hg : fetchGuard s = true
    · have hguard := hg
      simp only [fetchGuard, Bool.and_eq_true, Bool.not_eq_true',
        Option.isNone_iff_eq_none] at hguard
      obtain ⟨⟨⟨ho, hv⟩, he⟩, hl⟩ := hguard
      simp only [popoverStep, hg, if_true]
      refine ⟨fun _ => ⟨hv, he⟩, ?_, ?_⟩
      · intro hnone
        obtain ⟨hc, _, _⟩ := h2 hnone
        subst hnone
        simpa using ⟨hc, hv, he⟩
      · intro hsome
        obtain ⟨hc1, hc2⟩ := h3 hsome
        have hc0 : s.calls = 0 := by
          rcases Nat.eq_or_lt_of_le hc1 with h' | h'
          · exfalso
            rcases hc2.mp h' with hbad | hbad | hbad
            · rw [hl] at hbad; exact Bool.false_ne_true hbad
            · rw [hv] at hbad; exact Bool.false_ne_true hbad
            · rw [he] at hbad; exact Bool.false_ne_true hbad
          · omega
        rw [Option.isSome_iff_exists] at hsome
        obtain ⟨api, rfl⟩ := hsome
        simp [hc0]
    · simp only [popoverStep, hg, if_false, Bool.false_eq_true]
      exact ⟨h1, h2, h3⟩
  | complete =>
    by_cases hl : s.loading = true
    · obtain ⟨hv, he⟩ := h1 hl
      simp only [popoverStep, hl, if_true]
      cases lookup with
      | none =>
        simp only [loadBody]
        refine ⟨by simp, ?_, by simp⟩
        intro _
        exact ⟨(h2 rfl).1, rfl, rfl⟩
      | some api =>
        obtain ⟨hc1, hc2⟩ := h3 rfl
        have hc : s.calls = 1 := hc2.mpr (Or.inl hl)
        cases happ : api ref with
        | error m =>
          simp only [loadBody, happ]
          exact ⟨by simp, by simp, fun _ => by simp [hc]⟩
        | ok v =>
          cases v with
          | none =>
            simp only [loadBody, happ]
            exact ⟨by simp, by simp, fun _ => by simp [hc]⟩
          | some retrieved =>
            simp only [loadBody, happ]
            exact ⟨by simp, by simp, fun _ => by simp [hc]⟩
    · simp only [popoverStep, hl, if_false, Bool.false_eq_true]
      exact ⟨h1, h2, h3⟩

/-- The reachability invariant holds after any run from an invariant
state. -/
theorem peekInv_runFrom
    (lookup : Option (CompoundEntityRef → Except String (Option Entity)))
    (ref : CompoundEntityRef) (es : List PopoverEvent) (s : PeekAheadState)
    (h : PeekInv lookup s) :
    PeekInv lookup (popoverRunFrom lookup ref s es) := by
  induction es generalizing s with
  | nil => exact h
  | cons e es ih => exact ih _ (peekInv_step lookup ref s e h)

/-- The reachability invariant holds in every reachable state. -/
theorem peekInv_run
    (lookup : Option (CompoundEntityRef → Except String (Option Entity)))
    (ref : CompoundEntityRef) (es : List PopoverEvent) :
    PeekInv lookup (popoverRun lookup ref es) :=
  peekInv_runFrom lookup ref es initPeekAheadState (peekInv_init lookup)

/-- Once a value or an error is cached, a single transition changes
neither the cache nor the dispatch counter. -/
theorem popoverStep_settled
    (lookup : Option (CompoundEntityRef → Except String (Option Entity)))
    (ref : CompoundEntityRef) (s : PeekAheadState) (e : PopoverEvent)
    (h : PeekInv lookup s)
    (hs : s.value.isSome = true ∨ s.error.isSome = true) :
    (popoverStep lookup ref s e).dispatches = s.dispatches
    ∧ (popoverStep lookup ref s e).value = s.value
    ∧ (popoverStep lookup ref s e).error = s.error := by
  obtain ⟨h1, _, _⟩ := h
  cases e with
  | setOpen b => exact ⟨rfl, rfl, rfl⟩
  | effect =>
    have hg : fetchGuard s = false := by
      rcases hs with h' | h'
      · rw [Option.isSome_iff_exists] at h'
        obtain ⟨v, hv⟩ := h'
        simp [fetchGuard, hv]
      · rw [Option.isSome_iff_exists] at h'
        obtain ⟨m, hm⟩ := h'
        simp [fetchGuard, hm]
    simp [popoverStep, hg]
  | complete =>
    have hl : s.loading = false := by
      by_contra hcontra
      rw [Bool.not_eq_false] at hcontra
      obtain ⟨hv, he⟩ := h1 hcontra
      rcases hs with h' | h'
      · rw [hv] at h'; exact Bool.false_ne_true h'
      · rw [he] at h'; exact Bool.false_ne_true h'
    simp [popoverStep, hl]

/-- Once a value or an error is cached, no run of further events ever
changes the dispatch counter: the fetch machinery has come to rest. -/
theorem popoverRunFrom_settled
    (lookup : Option (CompoundEntityRef → Except String (Option Entity)))
    (ref : CompoundEntityRef) (es : List PopoverEvent) (s : PeekAheadState)
    (h : PeekInv lookup s)
    (hs : s.value.isSome = true ∨ s.error.isSome = true) :
    (popoverRunFrom lookup ref s es).dispatches = s.dispatches := by
  induction es generalizing s with
  | nil => rfl
  | cons e es ih =>
    obtain ⟨hd, hv, he⟩ := popoverStep_settled lookup ref s e h hs
    have hs' : (popoverStep lookup ref s e).value.isSome = true
        ∨ (popoverStep lookup ref s e).error.isSome = true := by
      rw [hv, he]; exact hs
    have := ih (popoverStep lookup ref s e) (peekInv_step lookup ref s e h) hs'
    calc (popoverRunFrom lookup ref (popoverStep lookup ref s e) es).dispatches
        = (popoverStep lookup ref s e).dispatches := this
      _ = s.dispatches := hd

/-! ## Claims about the fetch behavior of `PeekAheadPopover` -/

/-- C1: over the lifetime of a mounted `PeekAheadPopover` instance, at
most one `getEntityByRef` call is ever issued, however often the popover
is opened and closed; the effect dispatches a fetch iff the popover is
open, no entity value and no error is cached, and no fetch is in flight;
and once a value (Loaded) or error (Failed) is cached, no further events
ever dispatch another fetch. -/
theorem peekAheadPopover_single_fetch
    (lookup : Option (CompoundEntityRef → Except String (Option Entity)))
    (ref : CompoundEntityRef) (es : List PopoverEvent) :
    (popoverRun lookup ref es).calls ≤ 1
    ∧ (∀ s : PeekAheadState,
        (popoverStep lookup ref s .effect).dispatches = s.dispatches + 1
          ↔ (s.isOpen = true ∧ s.value = none ∧ s.error = none
              ∧ s.loading = false))
    ∧ (∀ es' : List PopoverEvent,
        ((popoverRun lookup ref es).value.isSome = true
            ∨ (popoverRun lookup ref es).error.isSome = true) →
        (popoverRunFrom lookup ref (popoverRun lookup ref es) es').dispatches
          = (popoverRun lookup ref es).dispatches) := by
  have hinv := peekInv_run lookup ref es
  refine ⟨?_, ?_, ?_⟩
  · obtain ⟨_, h2, h3⟩ := hinv
    cases lookup with
    | none => rw [(h2 rfl).1]; omega
    | some api => exact (h3 rfl).1
  · intro s
    by_cases hg : fetchGuard s = true
    · have hguard := hg
      simp only [fetchGuard, Bool.and_eq_true, Bool.not_eq_true',
        Option.isNone_iff_eq_none] at hguard
      obtain ⟨⟨⟨ho, hv⟩, he⟩, hl⟩ := hguard
      simp [popoverStep, hg, ho, hv, he, hl]
    · simp only [popoverStep, hg, if_false, Bool.false_eq_true]
      constructor
      · intro hcontra
        exact absurd hcontra (by omega)
      · intro ⟨ho, hv, he, hl⟩
        exact absurd (by simp [fetchGuard, ho, hv, he, hl]) hg
  · intro es' hs
    exact popoverRunFrom_settled lookup ref es' (popoverRun lookup ref es)
      hinv hs

/-- Witness for C1: after a successful open-fetch-complete run, closing
and reopening the popover and re-running the effect leaves the dispatch
counter unchanged. -/
theorem peekAheadPopover_single_fetch_witness :
    (popoverRunFrom sampleLookup sampleRef
        (popoverRun sampleLookup sampleRef sampleTrace)
        [.setOpen false, .setOpen true, .effect]).dispatches
      = (popoverRun sampleLookup sampleRef sampleTrace).dispatches :=
  (peekAheadPopover_single_fetch sampleLookup sampleRef sampleTrace).2.2
    [.setOpen false, .setOpen true, .effect] (Or.inl rfl)

/-- C5: when the catalog lookup resolves with an empty result, completing
the in-flight fetch stores the synthesized Failed state whose error
message is exactly `"<name> was not found"` for the reference's name
component, with no entity value cached and the fetch no longer in
flight. -/
theorem peekAheadPopover_not_found_failed
    (getEntityByRef : CompoundEntityRef → Except String (Option Entity))
    (ref : CompoundEntityRef) (s : PeekAheadState)
    (hapi : getEntityByRef ref = .ok none) (hl : s.loading = true) :
    loadBody (some getEntityByRef) ref = .error (ref.name ++ " was not found")
    ∧ (popoverStep (some getEntityByRef) ref s .complete).error
        = some (ref.name ++ " was not found")
    ∧ (popoverStep (some getEntityByRef) ref s .complete).value = none
    ∧ (popoverStep (some getEntityByRef) ref s .complete).loading = false := by
  have hbody : loadBody (some getEntityByRef) ref
      = .error (ref.name ++ " was not found") := by
    simp [loadBody, hapi]
  refine ⟨hbody, ?_, ?_, ?_⟩ <;> simp [popoverStep, hl, hbody]

/-- Witness for C5 at the reference name `"missing"`: the Failed message
is `"missing was not found"`. -/
theorem peekAheadPopover_not_found_failed_witness :
    (popoverStep (some (fun _ => .ok none))
        ⟨"component", some "default", "missing"⟩
        ⟨true, true, none, none, 1, 1⟩ .complete).error
      = some "missing was not found" :=
  (peekAheadPopover_not_found_failed (fun _ => .ok none)
    ⟨"component", some "default", "missing"⟩
    ⟨true, true, none, none, 1, 1⟩ rfl rfl).2.1

/-- C10: when the capability locator yields no catalog api client, the
load body resolves to `undefined`; no entity value, no error and no
`getEntityByRef` call ever materializes in any reachable state, and from
any reachable state in which the popover is open and no fetch is in
flight, `n` further render cycles (effect run plus load settling) dispatch
`n` further loads: the trigger never stabilizes. -/
theorem peekAheadPopover_missing_api_redispatch
    (ref : CompoundEntityRef) (es : List PopoverEvent) :
    loadBody none ref = .ok none
    ∧ (popoverRun none ref es).value = none
    ∧ (popoverRun none ref es).error = none
    ∧ (popoverRun none ref es).calls = 0
    ∧ (∀ n : Nat, (popoverRun none ref es).isOpen = true →
        (popoverRun none ref es).loading = false →
        (popoverRunFrom none ref (popoverRun none ref es)
            (effectCompleteCycles n)).dispatches
          = (popoverRun none ref es).dispatches + n) := by
  have hinv := peekInv_run none ref es
  obtain ⟨_, h2, _⟩ := hinv
  obtain ⟨hc, hv, he⟩ := h2 rfl
  have hcycles : ∀ (n : Nat) (s : PeekAheadState), s.isOpen = true →
      s.loading = false → s.value = none → s.error = none →
      (popoverRunFrom none ref s (effectCompleteCycles n)).dispatches
        = s.dispatches + n := by
    intro n
    induction n with
    | zero =>
      intro s _ _ _ _
      rfl
    | succ m ih =>
      intro s ho hl hv' he'
      have hg : fetchGuard s = true := by
        simp [fetchGuard, ho, hl, hv', he']
      have hstep : effectCompleteCycles (m + 1)
          = PopoverEvent.effect :: PopoverEvent.complete
              :: effectCompleteCycles m := by
        simp [effectCompleteCycles, List.replicate_succ]
      rw [hstep]
      have heff : popoverStep none ref s .effect
          = { s with
                loading := true
                dispatches := s.dispatches + 1
                calls := s.calls + 0 } := by
        simp [popoverStep, hg]
      have hcomp : popoverStep none ref
          { s with
              loading := true
              dispatches := s.dispatches + 1
              calls := s.calls + 0 } .complete
          = { s with
                loading := false
                value := none
                error := none
                dispatches := s.dispatches + 1
                calls := s.calls + 0 } := by
        simp [popoverStep, loadBody]
      show (popoverRunFrom none ref
          (popoverStep none ref (popoverStep none ref s .effect) .complete)
          (effectCompleteCycles m)).dispatches = s.dispatches + (m + 1)
      rw [heff, hcomp]
      rw [ih { s with
          loading := false
          value := none
          error := none
          dispatches := s.dispatches + 1
          calls := s.calls + 0 } ho rfl rfl rfl]
      show s.dispatches + 1 + m = s.dispatches + (m + 1)
      omega
  refine ⟨rfl, hv, he, hc, ?_⟩
  intro n ho hl
  exact hcycles n (popoverRun none ref es) ho hl hv he

/-- Witness for C10: with no api client, opening the popover and running
three render cycles dispatches three loads. -/
theorem peekAheadPopover_missing_api_redispatch_witness :
    (popoverRunFrom none sampleRef
        (popoverRun none sampleRef [.setOpen true])
        (effectCompleteCycles 3)).dispatches
      = (popoverRun none sampleRef [.setOpen true]).dispatches + 3 :=
  (peekAheadPopover_missing_api_redispatch sampleRef [.setOpen true]).2.2.2.2
    3 rfl rfl

/-! ## Claims about error handling and rendering -/

/-- C8: every rejected load body (synthesized NotFound or a transport
error from `getEntityByRef`) is caught by the fetch machinery and stored
as the Failed state (the error message lands in `error`, to be rendered
as the inline warning of line 136), never escaping the component; whereas
a `ParseError` from a malformed reference string is not caught by
`EntityRefLink` and propagates out of normalization, and malformed
strings triggering it exist. -/
theorem fetch_errors_caught_parse_error_propagates :
    (∀ (lookup : Option (CompoundEntityRef → Except String (Option Entity)))
        (ref : CompoundEntityRef) (s : PeekAheadState) (m : String),
        loadBody lookup ref = .error m → s.loading = true →
        (popoverStep lookup ref s .complete).error = some m
          ∧ (popoverStep lookup ref s .complete).loading = false)
    ∧ (∀ (s m : String), parseEntityRef s = .error m →
        normalizeEntityRef (.str s) = .error m)
    ∧ (∃ (s m : String), parseEntityRef s = .error m) := by
  refine ⟨?_, ?_, ?_⟩
  · intro lookup ref s m hbody hl
    constructor <;> simp [popoverStep, hl, hbody]
  · intro s m hparse
    simp [normalizeEntityRef, hparse, Except.map]
  · exact ⟨"", "Entity reference  had missing or empty kind", rfl⟩

/-- Witness for C8: a rejecting transport lookup is stored as the Failed
state, and the malformed empty reference string propagates its
`ParseError` out of normalization. -/
theorem fetch_errors_caught_parse_error_propagates_witness :
    ((popoverStep (some (fun _ => .error "TransportError: fetch failed"))
        sampleRef ⟨true, true, none, none, 1, 1⟩ .complete).error
      = some "TransportError: fetch failed")
    ∧ normalizeEntityRef (.str "")
      = .error "Entity reference  had missing or empty kind" :=
  ⟨(fetch_errors_caught_parse_error_propagates.1
      (some (fun _ => .error "TransportError: fetch failed")) sampleRef
      ⟨true, true, none, none, 1, 1⟩ "TransportError: fetch failed" rfl rfl).1,
   fetch_errors_caught_parse_error_propagates.2.1 ""
     "Entity reference  had missing or empty kind" rfl⟩

/-- C6: the action row offers the mail action, with href
`mailto:<email>`, iff the loaded entity is classified as a user or group
entity AND its `spec.profile.email` is present (a non-empty email string,
since the empty string is falsy in the JavaScript guard); entities of any
other kind never show a mail action even when a profile email is
present. -/
theorem emailAction_iff_user_or_group_with_email (e : Entity) :
    ((∃ href, emailActionHref (some e) = some href)
        ↔ ((isUserEntity e = true ∨ isGroupEntity e = true)
            ∧ ∃ m, specProfileEmail e = some m ∧ m ≠ ""))
    ∧ (∀ m : String, specProfileEmail e = some m → m ≠ "" →
        (isUserEntity e = true ∨ isGroupEntity e = true) →
        emailActionHref (some e) = some ("mailto:" ++ m))
    ∧ (isUserEntity e = false → isGroupEntity e = false →
        emailActionHref (some e) = none) := by
  refine ⟨?_, ?_, ?_⟩
  · constructor
    · intro ⟨href, hhref⟩
      simp only [emailActionHref] at hhref
      by_cases hug : (isUserEntity e || isGroupEntity e) = true
      · rw [if_pos hug] at hhref
        cases hmail : specProfileEmail e with
        | none => rw [hmail] at hhref; cases hhref
        | some m =>
          rw [hmail] at hhref
          by_cases hm : m = ""
          · simp [hm] at hhref
          · rw [Bool.or_eq_true] at hug
            exact ⟨hug, m, rfl, hm⟩
      · rw [if_neg hug] at hhref; cases hhref
    · intro ⟨hug, m, hmail, hm⟩
      refine ⟨"mailto:" ++ m, ?_⟩
      have hug' : (isUserEntity e || isGroupEntity e) = true := by
        rw [Bool.or_eq_true]; exact hug
      simp [emailActionHref, hug', hmail, hm]
  · intro m hmail hm hug
    have hug' : (isUserEntity e || isGroupEntity e) = true := by
      rw [Bool.or_eq_true]; exact hug
    simp [emailActionHref, hug', hmail, hm]
  · intro hu hg
    simp [emailActionHref, hu, hg]

/-- Witness for C6: a user entity with email `"a@b.com"` renders the mail
action with href `"mailto:a@b.com"`; a resource entity with the same
email renders no mail action. -/
theorem emailAction_iff_user_or_group_with_email_witness :
    emailActionHref (some sampleUserEntity) = some "mailto:a@b.com"
    ∧ emailActionHref (some sampleResourceEntity) = none :=
  ⟨(emailAction_iff_user_or_group_with_email sampleUserEntity).2.1 "a@b.com"
      rfl (by decide) (Or.inl rfl),
   (emailAction_iff_user_or_group_with_email sampleResourceEntity).2.2
      rfl rfl⟩

/-- A list of tag chips counts one chip per tag. -/
theorem countTagChips_map_chip (l : List String) :
    countTagChips (l.map RenderNode.chip) = l.length := by
  induction l with
  | nil => rfl
  | cons t l ih =>
    simp only [List.map_cons, countTagChips, List.filter_cons] at *
    simpa using ih

/-- `countTagChips` is additive over concatenation. -/
theorem countTagChips_append (a b : List RenderNode) :
    countTagChips (a ++ b) = countTagChips a + countTagChips b := by
  simp [countTagChips, List.filter_append]

/-- C7: for a present tag list of length `n`, the chip box renders
exactly `min n 4` individual tag chips, and the `...` overflow chip is
rendered iff `n > 4`. -/
theorem renderTagChips_count_and_overflow (ts : List String) :
    countTagChips (renderTagChips (some ts)) = min ts.length maxTagChips
    ∧ (hasOverflowChip (renderTagChips (some ts)) = true
        ↔ ts.length > maxTagChips) := by
  have hmem : RenderNode.overflowChip ∉ (ts.take maxTagChips).map RenderNode.chip := by
    intro hcontra
    rcases List.mem_map.mp hcontra with ⟨t, _, ht⟩
    exact RenderNode.noConfusion ht
  have hcount : countTagChips ((ts.take maxTagChips).map RenderNode.chip)
      = min ts.length maxTagChips := by
    rw [countTagChips_map_chip, List.length_take, Nat.min_comm]
  have hrender : renderTagChips (some ts)
      = (ts.take maxTagChips).map RenderNode.chip
        ++ renderJSVal (overflowChipExpr (some ts)) := rfl
  rcases Nat.lt_or_ge maxTagChips ts.length with hgt | hle
  · have h0 : ts.length ≠ 0 := by omega
    have hexpr : overflowChipExpr (some ts) = .node .overflowChip := by
      simp [overflowChipExpr, tagsLength, tagsLengthGtMax, jsAnd,
        JSVal.truthy, h0, hgt]
    rw [hrender, hexpr]
    constructor
    · rw [countTagChips_append, hcount]
      simp [renderJSVal, countTagChips]
    · simp [hasOverflowChip, renderJSVal, List.mem_append, hgt]
  · by_cases h0 : ts.length = 0
    · have hts : ts = [] := List.length_eq_zero.mp h0
      subst hts
      exact ⟨rfl, by decide⟩
    · have hle' : ¬ ts.length > maxTagChips := by omega
      have hexpr : overflowChipExpr (some ts) = .bool false := by
        simp [overflowChipExpr, tagsLength, tagsLengthGtMax, jsAnd,
          JSVal.truthy, h0, hle']
      rw [hrender, hexpr]
      constructor
      · rw [countTagChips_append, hcount]
        simp [renderJSVal, countTagChips]
      · have hfalse : hasOverflowChip ((ts.take maxTagChips).map RenderNode.chip
            ++ renderJSVal (JSVal.bool false)) = false := by
          rw [show renderJSVal (JSVal.bool false) = [] from rfl, List.append_nil]
          exact decide_eq_false hmem
        rw [hfalse]
        constructor
        · intro hcontra; exact Bool.noConfusion hcontra
        · intro hcontra; exact absurd hcontra hle'

/-- C9: when the tag list is present but empty, the overflow guard
expression `tags?.length && tags?.length > maxTagChips && (...)`
evaluates to the JavaScript number `0`, so the chip box renders a stray
literal `"0"` text node and zero tag chips. -/
theorem renderTagChips_empty_tags_stray_zero :
    overflowChipExpr (some []) = JSVal.num 0
    ∧ renderTagChips (some []) = [RenderNode.text "0"]
    ∧ countTagChips (renderTagChips (some [])) = 0 :=
  ⟨rfl, rfl, rfl⟩
